import Mathlib

/-!
Verification development for the real-time voice-chat session layer.

The server side (`src/server/main.py`, class `ConnectionManager`) is modelled
as pure functions over an explicit per-client session state: machine bytes are
naturals below 256, wall-clock times are rationals, fallible paths return
`Option`.  The RunPod serverless side (`src/runpod-function/handler.py`) is
modelled as functions producing the list of streamed stage events; the opaque
collaborators (speech models, the upsampler, the HTTP transport, the floating
point sine of the fallback tone) enter as explicit parameters.
-/

namespace VoiceChat

/-- Big-endian unsigned integer of a byte list, as in `struct.unpack('>I', …)`. -/
def beBytes (bs : List Nat) : Nat := bs.foldl (fun a b => a * 256 + b) 0

/-- `BATCH_SAMPLES = 2400` (100 ms at 24 kHz), from `src/server/main.py`. -/
def BATCH_SAMPLES : Nat := 2400

/-- `HEADER_BYTES = 8`: 4-byte timestamp plus 4-byte flags. -/
def HEADER_BYTES : Nat := 8

/-- `FRAME_BYTES = BATCH_SAMPLES * 2` (16-bit samples). -/
def FRAME_BYTES : Nat := BATCH_SAMPLES * 2

/-- `MIN_BUFFER_SIZE = FRAME_BYTES + HEADER_BYTES`: the exact expected
total size of one inbound binary audio frame (4808 bytes). -/
def MIN_BUFFER_SIZE : Nat := FRAME_BYTES + HEADER_BYTES

/-- `self.min_request_interval = 2.0` seconds between RunPod requests. -/
def min_request_interval : ℚ := 2

/-- `min_buffer_size = 96000` bytes (2 s of 24 kHz 16-bit audio), the local
threshold inside `process_audio_chunk`. -/
def min_buffer_size : Nat := 96000

/-- The idle-flush threshold `10.0` seconds used by `_audio_buffer_flusher`. -/
def flusher_max_wait : ℚ := 10

/-- Timeout of the `/run` submit request (`timeout=3.0`). -/
def run_request_timeout : ℚ := 3

/-- Timeout of the `/stream/{job_id}` request (`timeout=15.0`). -/
def stream_request_timeout : ℚ := 15

/-- Timestamp field of a frame: big-endian 32-bit integer of bytes 0..3. -/
def frame_timestamp (data : List Nat) : Nat := beBytes (data.take 4)

/-- Flags field of a frame: big-endian 32-bit integer of bytes 4..7. -/
def frame_flags (data : List Nat) : Nat := beBytes ((data.drop 4).take 4)

/-- `is_tts_playing = bool(flags & 1)`. -/
def frame_tts (data : List Nat) : Bool := frame_flags data % 2 == 1

/-- The PCM payload: everything after the 8-byte header. -/
def frame_payload (data : List Nat) : List Nat := data.drop HEADER_BYTES

/-- Per-client state dictionary of `ConnectionManager.client_states`. -/
structure ClientState where
  tts_playing : Bool
  last_audio_time : Nat
  deriving DecidableEq, Repr

/-- Per-client session data held by `ConnectionManager`: the client-state
dictionary entry, the audio buffer, and the last-dispatch wall-clock time. -/
structure Session where
  client : ClientState
  audio_buffer : List Nat
  last_request_time : ℚ
  deriving DecidableEq, Repr

/-- Session state right after `ConnectionManager.connect`. -/
def initSession : Session := ⟨⟨false, 0⟩, [], 0⟩

/-- The `input` object of a RunPod submission built at dispatch time
(`audio_data` kept as raw bytes; base64 transport encoding elided). -/
structure RunpodPayload where
  audio_data : List Nat
  audio_length : Nat
  tts_playing : Bool
  timestamp : Int
  deriving DecidableEq, Repr

/-- The Frame Codec view of lines 147-162 of `process_audio_chunk`:
a frame of exactly `MIN_BUFFER_SIZE` bytes decodes into
(timestamp, ttsPlaying flag, payload); any other size is invalid. -/
def decodeFrame (data : List Nat) : Option (Nat × Bool × List Nat) :=
  if data.length = MIN_BUFFER_SIZE then
    some (frame_timestamp data, frame_tts data, frame_payload data)
  else none

/-- `ConnectionManager.process_audio_chunk` for a connected client: returns the
session after the frame and the RunPod payload if this frame triggered a
dispatch.  Mirrors `src/server/main.py` lines 139-204. -/
def process_audio_chunk (s : Session) (now : ℚ) (data : List Nat) :
    Session × Option RunpodPayload :=
  if data.length ≠ MIN_BUFFER_SIZE then (s, none)
  else
    let ts := frame_timestamp data
    let tts := frame_tts data
    let s1 : Session := { s with
      client := ⟨tts, ts⟩
      audio_buffer := s.audio_buffer ++ frame_payload data }
    let buffer_size := s1.audio_buffer.length
    if min_request_interval ≤ now - s.last_request_time ∧
        min_buffer_size ≤ buffer_size ∧ tts = false then
      ({ s1 with
          audio_buffer := []
          last_request_time := now },
       some ⟨s1.audio_buffer, buffer_size, tts, (ts : Int)⟩)
    else (s1, none)

/-- Python `int()` truncation toward zero of a rational. -/
def pyInt (q : ℚ) : Int := q.num.tdiv (q.den : Int)

/-- One evaluation of the background sweep `_audio_buffer_flusher` for one
client: flush iff the buffer is non-empty and at least `flusher_max_wait`
seconds passed since `last_request_time`.  Mirrors lines 272-301. -/
def flusher_step (s : Session) (now : ℚ) : Session × Option RunpodPayload :=
  let buffer_size := s.audio_buffer.length
  if 0 < buffer_size ∧ flusher_max_wait ≤ now - s.last_request_time then
    ({ s with
        audio_buffer := []
        last_request_time := now },
     some ⟨s.audio_buffer, buffer_size, false, pyInt (now * 1000)⟩)
  else (s, none)

example : MIN_BUFFER_SIZE = 4808 := by decide

example : process_audio_chunk initSession 0 [1, 2, 3] = (initSession, none) := by
  norm_num [process_audio_chunk, MIN_BUFFER_SIZE, FRAME_BYTES, BATCH_SAMPLES,
    HEADER_BYTES]

example : (flusher_step ⟨⟨true, 7⟩, [5], 0⟩ 12).2 =
    some ⟨[5], 1, false, 12000⟩ := by
  norm_num [flusher_step, flusher_max_wait, pyInt, Int.tdiv]

theorem frame_payload_length (data : List Nat) (h : data.length = MIN_BUFFER_SIZE) :
    (frame_payload data).length = FRAME_BYTES := by
  simp [frame_payload, h, MIN_BUFFER_SIZE, HEADER_BYTES, FRAME_BYTES, BATCH_SAMPLES]

theorem process_audio_chunk_invalid (s : Session) (now : ℚ) (data : List Nat)
    (h : data.length ≠ MIN_BUFFER_SIZE) :
    process_audio_chunk s now data = (s, none) := by
  simp [process_audio_chunk, h]

theorem process_audio_chunk_dispatch (s : Session) (now : ℚ) (data : List Nat)
    (h : data.length = MIN_BUFFER_SIZE)
    (hc : min_request_interval ≤ now - s.last_request_time ∧
      min_buffer_size ≤ s.audio_buffer.length + FRAME_BYTES ∧
      frame_tts data = false) :
    process_audio_chunk s now data =
      (⟨⟨frame_tts data, frame_timestamp data⟩, [], now⟩,
       some ⟨s.audio_buffer ++ frame_payload data,
             s.audio_buffer.length + FRAME_BYTES, frame_tts data,
             (frame_timestamp data : Int)⟩) := by
  have hp := frame_payload_length data h
  simp only [process_audio_chunk, h, ne_eq, not_true_eq_false, if_false,
    List.length_append, hp]
  rw [if_pos hc]

theorem process_audio_chunk_buffering (s : Session) (now : ℚ) (data : List Nat)
    (h : data.length = MIN_BUFFER_SIZE)
    (hc : ¬ (min_request_interval ≤ now - s.last_request_time ∧
      min_buffer_size ≤ s.audio_buffer.length + FRAME_BYTES ∧
      frame_tts data = false)) :
    process_audio_chunk s now data =
      (⟨⟨frame_tts data, frame_timestamp data⟩,
        s.audio_buffer ++ frame_payload data, s.last_request_time⟩, none) := by
  have hp := frame_payload_length data h
  simp only [process_audio_chunk, h, ne_eq, not_true_eq_false, if_false,
    List.length_append, hp]
  rw [if_neg hc]

theorem process_audio_chunk_isSome_iff (s : Session) (now : ℚ) (data : List Nat) :
    (process_audio_chunk s now data).2.isSome = true ↔
      data.length = MIN_BUFFER_SIZE ∧
      min_buffer_size ≤ s.audio_buffer.length + FRAME_BYTES ∧
      min_request_interval ≤ now - s.last_request_time ∧
      frame_tts data = false := by
  by_cases h : data.length = MIN_BUFFER_SIZE
  · by_cases hc : min_request_interval ≤ now - s.last_request_time ∧
        min_buffer_size ≤ s.audio_buffer.length + FRAME_BYTES ∧
        frame_tts data = false
    · rw [process_audio_chunk_dispatch s now data h hc]
      simp only [Option.isSome_some, true_iff]
      exact ⟨h, hc.2.1, hc.1, hc.2.2⟩
    · rw [process_audio_chunk_buffering s now data h hc]
      simp only [Option.isSome_none, Bool.false_eq_true, false_iff]
      intro hcon
      exact hc ⟨hcon.2.2.1, hcon.2.1, hcon.2.2.2⟩
  · rw [process_audio_chunk_invalid s now data h]
    simp only [Option.isSome_none, Bool.false_eq_true, false_iff]
    intro hcon
    exact h hcon.1

theorem flusher_step_flush (s : Session) (now : ℚ)
    (hc : 0 < s.audio_buffer.length ∧
      flusher_max_wait ≤ now - s.last_request_time) :
    flusher_step s now =
      ({ s with
          audio_buffer := []
          last_request_time := now },
       some ⟨s.audio_buffer, s.audio_buffer.length, false, pyInt (now * 1000)⟩) := by
  simp only [flusher_step]
  rw [if_pos hc]

theorem flusher_step_skip (s : Session) (now : ℚ)
    (hc : ¬ (0 < s.audio_buffer.length ∧
      flusher_max_wait ≤ now - s.last_request_time)) :
    flusher_step s now = (s, none) := by
  simp only [flusher_step]
  rw [if_neg hc]

theorem flusher_step_isSome_iff (s : Session) (now : ℚ) :
    (flusher_step s now).2.isSome = true ↔
      0 < s.audio_buffer.length ∧
      flusher_max_wait ≤ now - s.last_request_time := by
  by_cases hc : 0 < s.audio_buffer.length ∧
      flusher_max_wait ≤ now - s.last_request_time
  · rw [flusher_step_flush s now hc]
    simpa using hc
  · rw [flusher_step_skip s now hc]
    simpa using hc

/-- Which code path produced a dispatch: the per-frame threshold path of
`process_audio_chunk`, or the background sweep `_audio_buffer_flusher`. -/
inductive SrcKind where
  | frame
  | sweep
  deriving DecidableEq, Repr

/-- Observable events of one session: a binary frame arriving at wall-clock
time `now`, one evaluation of the background sweep for this client, and the
completion of an in-flight RunPod call. -/
inductive SysEv where
  | frameArrival (now : ℚ) (data : List Nat)
  | sweepCheck (now : ℚ)
  | jobDone
  deriving DecidableEq, Repr

/-- Session state plus execution bookkeeping: `lastActivity` records the
arrival time of the most recent frame (the spec's "last activity" clock, which
the code itself never stores), `dispatches` the time and source of every
dispatch, and `inFlight`/`maxInFlight` count concurrently outstanding RunPod
calls. -/
structure SysState where
  sess : Session
  lastActivity : ℚ
  dispatches : List (ℚ × SrcKind)
  inFlight : Nat
  maxInFlight : Nat
  deriving DecidableEq, Repr

/-- One interleaving step of the per-connection handler and the sweep task. -/
def sysStep (st : SysState) : SysEv → SysState
  | SysEv.frameArrival now data =>
      match process_audio_chunk st.sess now data with
      | (s2, none) => { st with sess := s2, lastActivity := now }
      | (s2, some _) =>
          { st with
            sess := s2
            lastActivity := now
            dispatches := st.dispatches ++ [(now, SrcKind.frame)]
            inFlight := st.inFlight + 1
            maxInFlight := max st.maxInFlight (st.inFlight + 1) }
  | SysEv.sweepCheck now =>
      match flusher_step st.sess now with
      | (s2, none) => { st with sess := s2 }
      | (s2, some _) =>
          { st with
            sess := s2
            dispatches := st.dispatches ++ [(now, SrcKind.sweep)]
            inFlight := st.inFlight + 1
            maxInFlight := max st.maxInFlight (st.inFlight + 1) }
  | SysEv.jobDone => { st with inFlight := st.inFlight - 1 }

/-- State right after `connect`: fresh session, no dispatches, nothing in
flight; connect time taken as 0. -/
def initSys : SysState := ⟨initSession, 0, [], 0, 0⟩

/-- Run a sequence of events against a freshly connected session. -/
def runEvents (evs : List SysEv) : SysState := evs.foldl sysStep initSys

/-- An all-zero frame of the exact expected wire size. -/
def zFrame : List Nat := List.replicate MIN_BUFFER_SIZE 0

theorem zFrame_length : zFrame.length = MIN_BUFFER_SIZE := by
  simp [zFrame]

theorem beBytes_replicate_four : beBytes (List.replicate 4 0) = 0 := by decide

theorem zFrame_timestamp : frame_timestamp zFrame = 0 := by
  rw [frame_timestamp, zFrame, List.take_replicate]
  norm_num [MIN_BUFFER_SIZE, FRAME_BYTES, BATCH_SAMPLES, HEADER_BYTES]
  exact beBytes_replicate_four

theorem zFrame_tts : frame_tts zFrame = false := by
  rw [frame_tts, frame_flags, zFrame, List.drop_replicate, List.take_replicate]
  norm_num [MIN_BUFFER_SIZE, FRAME_BYTES, BATCH_SAMPLES, HEADER_BYTES]
  rw [beBytes_replicate_four]

theorem zFrame_payload : frame_payload zFrame = List.replicate FRAME_BYTES 0 := by
  rw [frame_payload, zFrame, List.drop_replicate]
  norm_num [MIN_BUFFER_SIZE, HEADER_BYTES]

/-- **C1** (amended): a frame arrival dispatches iff the frame has the exact
expected size, the post-append buffer reaches `min_buffer_size`, at least
`min_request_interval` passed since the last dispatch, and the frame's
ttsPlaying flag is clear; a background-sweep evaluation dispatches iff the
buffer is non-empty and at least `flusher_max_wait` passed since the last
dispatch (`last_request_time`) — not since the last activity — and
irrespective of the ttsPlaying flag. -/
theorem C1_dispatch_policy (s : Session) (now : ℚ) (data : List Nat) :
    ((process_audio_chunk s now data).2.isSome = true ↔
      data.length = MIN_BUFFER_SIZE ∧
      min_buffer_size ≤ s.audio_buffer.length + FRAME_BYTES ∧
      min_request_interval ≤ now - s.last_request_time ∧
      frame_tts data = false) ∧
    ((flusher_step s now).2.isSome = true ↔
      0 < s.audio_buffer.length ∧
      flusher_max_wait ≤ now - s.last_request_time) :=
  ⟨process_audio_chunk_isSome_iff s now data, flusher_step_isSome_iff s now⟩

/-- A two-event run refuting the "time since last activity" reading of the
idle flush: one valid frame at t = 10, one sweep at t = 11. -/
def c1trace : List SysEv := [SysEv.frameArrival 10 zFrame, SysEv.sweepCheck 11]

theorem c1_no_dispatch_cond :
    ¬ (min_request_interval ≤ (10 : ℚ) - initSession.last_request_time ∧
      min_buffer_size ≤ initSession.audio_buffer.length + FRAME_BYTES ∧
      frame_tts zFrame = false) := by
  intro hcon
  have h := hcon.2.1
  norm_num [initSession, min_buffer_size, FRAME_BYTES, BATCH_SAMPLES] at h

theorem c1_first_step :
    process_audio_chunk initSession 10 zFrame =
      (⟨⟨false, 0⟩, List.replicate FRAME_BYTES 0, 0⟩, none) := by
  have h1 := process_audio_chunk_buffering initSession 10 zFrame zFrame_length
    c1_no_dispatch_cond
  rw [zFrame_tts, zFrame_timestamp, zFrame_payload] at h1
  rw [h1]
  simp only [initSession, List.nil_append]

theorem c1_second_step :
    flusher_step ⟨⟨false, 0⟩, List.replicate FRAME_BYTES 0, 0⟩ 11 =
      (⟨⟨false, 0⟩, [], 11⟩,
       some ⟨List.replicate FRAME_BYTES 0, FRAME_BYTES, false, pyInt (11 * 1000)⟩) := by
  have h2 := flusher_step_flush ⟨⟨false, 0⟩, List.replicate FRAME_BYTES 0, 0⟩ 11
    (by constructor
        · simp only [List.length_replicate]
          norm_num [FRAME_BYTES, BATCH_SAMPLES]
        · norm_num [flusher_max_wait])
  rw [h2]
  rw [List.length_replicate]

/-- **C1** counterexample: in the run `c1trace` the sweep at t = 11 dispatches
the buffer although only one second has passed since the last frame arrival,
i.e. the idle-flush trigger fires with `now - lastActivity < flusher_max_wait`;
it compares against `last_request_time`, not the time of last activity. -/
theorem C1_counterexample :
    (runEvents c1trace).dispatches = [(11, SrcKind.sweep)] ∧
    (11 : ℚ) - (runEvents c1trace).lastActivity < flusher_max_wait := by
  have hrun : runEvents c1trace =
      ⟨⟨⟨false, 0⟩, [], 11⟩, 10, [(11, SrcKind.sweep)], 1, 1⟩ := by
    simp only [runEvents, c1trace, List.foldl_cons, List.foldl_nil, sysStep,
      initSys, c1_first_step, c1_second_step, List.nil_append]
    norm_num
  rw [hrun]
  norm_num [flusher_max_wait]

/-- **C2**: a frame of exactly `MIN_BUFFER_SIZE` bytes decodes into timestamp,
ttsPlaying bit and fixed-length payload, and the session takes that decoded
client state; a frame of any other length is dropped with every part of the
session state unchanged and no dispatch. -/
theorem C2_frame_validation (s : Session) (now : ℚ) (data : List Nat) :
    (data.length = MIN_BUFFER_SIZE →
      decodeFrame data =
        some (frame_timestamp data, frame_tts data, frame_payload data) ∧
      (frame_payload data).length = FRAME_BYTES ∧
      (process_audio_chunk s now data).1.client =
        ⟨frame_tts data, frame_timestamp data⟩) ∧
    (data.length ≠ MIN_BUFFER_SIZE →
      decodeFrame data = none ∧
      process_audio_chunk s now data = (s, none)) := by
  constructor
  · intro h
    refine ⟨by simp [decodeFrame, h], frame_payload_length data h, ?_⟩
    by_cases hc : min_request_interval ≤ now - s.last_request_time ∧
        min_buffer_size ≤ s.audio_buffer.length + FRAME_BYTES ∧
        frame_tts data = false
    · rw [process_audio_chunk_dispatch s now data h hc]
    · rw [process_audio_chunk_buffering s now data h hc]
  · intro h
    exact ⟨by simp [decodeFrame, h], process_audio_chunk_invalid s now data h⟩

/-- **C2** witness: the all-zero 4808-byte frame decodes and updates the
client state; a 3-byte frame is dropped with the session untouched. -/
theorem C2_frame_validation_witness :
    (zFrame.length = MIN_BUFFER_SIZE ∧
      decodeFrame zFrame =
        some (frame_timestamp zFrame, frame_tts zFrame, frame_payload zFrame) ∧
      (frame_payload zFrame).length = FRAME_BYTES ∧
      (process_audio_chunk initSession 10 zFrame).1.client =
        ⟨frame_tts zFrame, frame_timestamp zFrame⟩) ∧
    (([1, 2, 3] : List Nat).length ≠ MIN_BUFFER_SIZE ∧
      decodeFrame [1, 2, 3] = none ∧
      process_audio_chunk initSession 10 [1, 2, 3] = (initSession, none)) := by
  have hlen : ([1, 2, 3] : List Nat).length ≠ MIN_BUFFER_SIZE := by decide
  have h1 := (C2_frame_validation initSession 10 zFrame).1 zFrame_length
  have h2 := (C2_frame_validation initSession 10 [1, 2, 3]).2 hlen
  exact ⟨⟨zFrame_length, h1.1, h1.2.1, h1.2.2⟩, ⟨hlen, h2.1, h2.2⟩⟩

/-- **C10**: every idle-flush dispatch carries `tts_playing = false` and a
timestamp synthesized from the server clock (`int(current_time * 1000)`),
for every session state; every frame-triggered dispatch carries the frame's
own ttsPlaying flag and client timestamp. -/
theorem C10_payload_provenance (s : Session) (now : ℚ) (data : List Nat)
    (p q : RunpodPayload) :
    ((flusher_step s now).2 = some p →
      p.tts_playing = false ∧ p.timestamp = pyInt (now * 1000)) ∧
    ((process_audio_chunk s now data).2 = some q →
      q.tts_playing = frame_tts data ∧
      q.timestamp = (frame_timestamp data : Int)) := by
  constructor
  · intro hp
    by_cases hc : 0 < s.audio_buffer.length ∧
        flusher_max_wait ≤ now - s.last_request_time
    · rw [flusher_step_flush s now hc] at hp
      simp only [Option.some.injEq] at hp
      subst hp
      exact ⟨rfl, rfl⟩
    · rw [flusher_step_skip s now hc] at hp
      simp at hp
  · intro hq
    by_cases h : data.length = MIN_BUFFER_SIZE
    · by_cases hc : min_request_interval ≤ now - s.last_request_time ∧
          min_buffer_size ≤ s.audio_buffer.length + FRAME_BYTES ∧
          frame_tts data = false
      · rw [process_audio_chunk_dispatch s now data h hc] at hq
        simp only [Option.some.injEq] at hq
        subst hq
        exact ⟨rfl, rfl⟩
      · rw [process_audio_chunk_buffering s now data h hc] at hq
        simp at hq
    · rw [process_audio_chunk_invalid s now data h] at hq
      simp at hq

/-- A session whose client reports that TTS is playing, with a small buffer
and an old last-dispatch time: the sweep will flush it. -/
def smallSession : Session := ⟨⟨true, 7⟩, [5], 0⟩

/-- A session with 91200 buffered bytes, one frame short of the 96000-byte
dispatch threshold. -/
def bigSession : Session := ⟨⟨true, 7⟩, List.replicate 91200 0, 0⟩

theorem smallSession_flush :
    (flusher_step smallSession 12).2 = some ⟨[5], 1, false, pyInt (12 * 1000)⟩ := by
  rw [flusher_step_flush smallSession 12
    (by constructor
        · simp [smallSession]
        · norm_num [smallSession, flusher_max_wait])]
  rfl

theorem bigSession_dispatch :
    (process_audio_chunk bigSession 2 zFrame).2 =
      some ⟨List.replicate 91200 0 ++ frame_payload zFrame, 91200 + FRAME_BYTES,
            frame_tts zFrame, (frame_timestamp zFrame : Int)⟩ := by
  have hbuf : bigSession.audio_buffer = List.replicate 91200 0 := rfl
  have hlrt : bigSession.last_request_time = 0 := rfl
  have hc : min_request_interval ≤ (2 : ℚ) - bigSession.last_request_time ∧
      min_buffer_size ≤ bigSession.audio_buffer.length + FRAME_BYTES ∧
      frame_tts zFrame = false := by
    refine ⟨?_, ?_, zFrame_tts⟩
    · rw [hlrt]
      norm_num [min_request_interval]
    · rw [hbuf, List.length_replicate]
      norm_num [min_buffer_size, FRAME_BYTES, BATCH_SAMPLES]
  rw [process_audio_chunk_dispatch bigSession 2 zFrame zFrame_length hc]
  rw [hbuf, List.length_replicate]

/-- **C10** witness: the sweep flushes `smallSession` (whose stored flag says
TTS is playing) with `tts_playing = false` and a server-clock timestamp, while
a frame-triggered dispatch out of `bigSession` reports the frame's flag and
timestamp. -/
theorem C10_payload_provenance_witness :
    smallSession.client.tts_playing = true ∧
    (flusher_step smallSession 12).2 =
      some ⟨[5], 1, false, pyInt (12 * 1000)⟩ ∧
    (RunpodPayload.mk [5] 1 false (pyInt (12 * 1000))).tts_playing = false ∧
    (RunpodPayload.mk [5] 1 false (pyInt (12 * 1000))).timestamp =
      pyInt ((12 : ℚ) * 1000) ∧
    (process_audio_chunk bigSession 2 zFrame).2 =
      some ⟨List.replicate 91200 0 ++ frame_payload zFrame, 91200 + FRAME_BYTES,
            frame_tts zFrame, (frame_timestamp zFrame : Int)⟩ ∧
    (RunpodPayload.mk (List.replicate 91200 0 ++ frame_payload zFrame)
        (91200 + FRAME_BYTES) (frame_tts zFrame)
        ((frame_timestamp zFrame : Int))).tts_playing = frame_tts zFrame := by
  refine ⟨rfl, smallSession_flush, ?_, ?_, bigSession_dispatch, ?_⟩
  · exact ((C10_payload_provenance smallSession 12 zFrame
      ⟨[5], 1, false, pyInt (12 * 1000)⟩
      ⟨[5], 1, false, pyInt (12 * 1000)⟩).1 smallSession_flush).1
  · exact ((C10_payload_provenance smallSession 12 zFrame
      ⟨[5], 1, false, pyInt (12 * 1000)⟩
      ⟨[5], 1, false, pyInt (12 * 1000)⟩).1 smallSession_flush).2
  · exact ((C10_payload_provenance bigSession 2 zFrame
      ⟨[5], 1, false, pyInt (12 * 1000)⟩
      ⟨List.replicate 91200 0 ++ frame_payload zFrame, 91200 + FRAME_BYTES,
       frame_tts zFrame, (frame_timestamp zFrame : Int)⟩).2 bigSession_dispatch).1

theorem fold_invalid_frames (evs : List SysEv) (st : SysState)
    (h : ∀ e ∈ evs, ∃ now data, e = SysEv.frameArrival now data ∧
      data.length ≠ MIN_BUFFER_SIZE) :
    (evs.foldl sysStep st).sess = st.sess ∧
    (evs.foldl sysStep st).dispatches = st.dispatches := by
  induction evs generalizing st with
  | nil => exact ⟨rfl, rfl⟩
  | cons e evs ih =>
      obtain ⟨now, data, he, hlen⟩ := h e (List.mem_cons_self e evs)
      subst he
      have hstep : sysStep st (SysEv.frameArrival now data) =
          { st with lastActivity := now } := by
        simp only [sysStep, process_audio_chunk_invalid st.sess now data hlen]
      rw [List.foldl_cons, hstep]
      exact ih { st with lastActivity := now }
        (fun e he => h e (List.mem_cons_of_mem _ he))

/-- A 2408-byte frame: the size the spec's scenario uses, which is not the
expected wire size (`MIN_BUFFER_SIZE` is 4808). -/
def badFrame : List Nat := List.replicate 2408 0

/-- Forty 2408-byte frames arriving on a fresh session. -/
def c9trace : List SysEv := List.replicate 40 (SysEv.frameArrival 1 badFrame)

theorem c9trace_all_invalid : ∀ e ∈ c9trace, ∃ now data,
    e = SysEv.frameArrival now data ∧ data.length ≠ MIN_BUFFER_SIZE := by
  intro e he
  rw [c9trace] at he
  rw [List.eq_of_mem_replicate he]
  refine ⟨1, badFrame, rfl, ?_⟩
  rw [badFrame, List.length_replicate]
  decide

/-- **C9** (amended): every frame whose total size differs from the expected
4808 bytes — in particular each 2408-byte frame of the spec's scenario — is
dropped, so after any run of such frames no dispatch is recorded and the
session buffer is still empty, not the sum of the frames' payload bytes. -/
theorem C9_short_frames_dropped (evs : List SysEv)
    (h : ∀ e ∈ evs, ∃ now data, e = SysEv.frameArrival now data ∧
      data.length ≠ MIN_BUFFER_SIZE) :
    (runEvents evs).sess.audio_buffer = [] ∧
    (runEvents evs).dispatches = [] := by
  have hf := fold_invalid_frames evs initSys h
  rw [runEvents]
  constructor
  · rw [hf.1]
    rfl
  · rw [hf.2]
    rfl

/-- **C9** witness: the concrete forty-frame 2408-byte run. -/
theorem C9_short_frames_dropped_witness :
    (∀ e ∈ c9trace, ∃ now data, e = SysEv.frameArrival now data ∧
      data.length ≠ MIN_BUFFER_SIZE) ∧
    (runEvents c9trace).sess.audio_buffer = [] ∧
    (runEvents c9trace).dispatches = [] :=
  ⟨c9trace_all_invalid, C9_short_frames_dropped c9trace c9trace_all_invalid⟩

/-- **C9** counterexample: after the forty 2408-byte frames the buffer holds 0
bytes — not the 40 × 2400 = 96000 payload bytes the claim predicts — because
each frame is rejected rather than accepted into the buffer. -/
theorem C9_counterexample :
    (runEvents c9trace).sess.audio_buffer.length = 0 ∧
    (runEvents c9trace).sess.audio_buffer.length ≠ 40 * (2408 - HEADER_BYTES) ∧
    (runEvents c9trace).dispatches = [] := by
  have hf := fold_invalid_frames c9trace initSys c9trace_all_invalid
  rw [runEvents]
  rw [hf.1, hf.2]
  refine ⟨rfl, ?_, rfl⟩
  rw [show initSys.sess.audio_buffer.length = 0 from rfl]
  decide

theorem process_audio_chunk_some_facts (s : Session) (now : ℚ) (data : List Nat)
    (s2 : Session) (pl : RunpodPayload)
    (h : process_audio_chunk s now data = (s2, some pl)) :
    min_request_interval ≤ now - s.last_request_time ∧
    s2.last_request_time = now := by
  by_cases hv : data.length = MIN_BUFFER_SIZE
  · by_cases hc : min_request_interval ≤ now - s.last_request_time ∧
        min_buffer_size ≤ s.audio_buffer.length + FRAME_BYTES ∧
        frame_tts data = false
    · rw [process_audio_chunk_dispatch s now data hv hc] at h
      injection h with h1 h2
      exact ⟨hc.1, by rw [← h1]⟩
    · rw [process_audio_chunk_buffering s now data hv hc] at h
      injection h with h1 h2
      exact Option.noConfusion h2
  · rw [process_audio_chunk_invalid s now data hv] at h
    injection h with h1 h2
    exact Option.noConfusion h2

theorem process_audio_chunk_none_lrt (s : Session) (now : ℚ) (data : List Nat)
    (s2 : Session) (h : process_audio_chunk s now data = (s2, none)) :
    s2.last_request_time = s.last_request_time := by
  by_cases hv : data.length = MIN_BUFFER_SIZE
  · by_cases hc : min_request_interval ≤ now - s.last_request_time ∧
        min_buffer_size ≤ s.audio_buffer.length + FRAME_BYTES ∧
        frame_tts data = false
    · rw [process_audio_chunk_dispatch s now data hv hc] at h
      injection h with h1 h2
      exact Option.noConfusion h2
    · rw [process_audio_chunk_buffering s now data hv hc] at h
      injection h with h1 h2
      rw [← h1]
  · rw [process_audio_chunk_invalid s now data hv] at h
    injection h with h1 h2
    rw [← h1]

theorem flusher_step_some_facts (s : Session) (now : ℚ)
    (s2 : Session) (pl : RunpodPayload)
    (h : flusher_step s now = (s2, some pl)) :
    flusher_max_wait ≤ now - s.last_request_time ∧
    s2.last_request_time = now := by
  by_cases hc : 0 < s.audio_buffer.length ∧
      flusher_max_wait ≤ now - s.last_request_time
  · rw [flusher_step_flush s now hc] at h
    injection h with h1 h2
    exact ⟨hc.2, by rw [← h1]⟩
  · rw [flusher_step_skip s now hc] at h
    injection h with h1 h2
    exact Option.noConfusion h2

theorem flusher_step_none_eq (s : Session) (now : ℚ)
    (s2 : Session) (h : flusher_step s now = (s2, none)) : s2 = s := by
  by_cases hc : 0 < s.audio_buffer.length ∧
      flusher_max_wait ≤ now - s.last_request_time
  · rw [flusher_step_flush s now hc] at h
    injection h with h1 h2
    exact Option.noConfusion h2
  · rw [flusher_step_skip s now hc] at h
    injection h with h1 h2
    exact h1.symm

/-- Consecutive dispatches are at least `min_request_interval` apart. -/
def minGap (a b : ℚ × SrcKind) : Prop := min_request_interval ≤ b.1 - a.1

theorem sysStep_gap (st : SysState) (e : SysEv)
    (hlast : ∀ t k, st.dispatches.getLast? = some (t, k) →
      t ≤ st.sess.last_request_time)
    (hchain : List.Chain' minGap st.dispatches) :
    (∀ t k, (sysStep st e).dispatches.getLast? = some (t, k) →
      t ≤ (sysStep st e).sess.last_request_time) ∧
    List.Chain' minGap (sysStep st e).dispatches := by
  cases e with
  | frameArrival now data =>
      rcases hE : process_audio_chunk st.sess now data with ⟨s2, p⟩
      cases p with
      | none =>
          have hstep : sysStep st (SysEv.frameArrival now data) =
              { st with sess := s2, lastActivity := now } := by
            simp only [sysStep, hE]
          rw [hstep]
          refine ⟨?_, hchain⟩
          intro t k hg
          rw [show ({ st with sess := s2, lastActivity := now } :
            SysState).sess.last_request_time = s2.last_request_time from rfl,
            process_audio_chunk_none_lrt st.sess now data s2 hE]
          exact hlast t k hg
      | some pl =>
          have hstep : sysStep st (SysEv.frameArrival now data) =
              { st with
                sess := s2
                lastActivity := now
                dispatches := st.dispatches ++ [(now, SrcKind.frame)]
                inFlight := st.inFlight + 1
                maxInFlight := max st.maxInFlight (st.inFlight + 1) } := by
            simp only [sysStep, hE]
          obtain ⟨hcond, hlrt⟩ :=
            process_audio_chunk_some_facts st.sess now data s2 pl hE
          rw [hstep]
          constructor
          · intro t k hg
            rw [List.getLast?_concat] at hg
            injection hg with hg
            rw [show ({ st with
                sess := s2
                lastActivity := now
                dispatches := st.dispatches ++ [(now, SrcKind.frame)]
                inFlight := st.inFlight + 1
                maxInFlight := max st.maxInFlight (st.inFlight + 1) } :
              SysState).sess.last_request_time = s2.last_request_time from rfl,
              hlrt]
            injection hg with hg1 hg2
            exact le_of_eq hg1.symm
          · rw [List.chain'_append]
            refine ⟨hchain, List.chain'_singleton _, ?_⟩
            intro a ha b hb
            rw [Option.mem_def] at ha hb
            simp only [List.head?_cons, Option.some.injEq] at hb
            subst hb
            have h1 : a.1 ≤ st.sess.last_request_time := hlast a.1 a.2 ha
            show min_request_interval ≤ now - a.1
            linarith [hcond]
  | sweepCheck now =>
      rcases hE : flusher_step st.sess now with ⟨s2, p⟩
      cases p with
      | none =>
          have hstep : sysStep st (SysEv.sweepCheck now) =
              { st with sess := s2 } := by
            simp only [sysStep, hE]
          rw [hstep]
          refine ⟨?_, hchain⟩
          intro t k hg
          rw [show ({ st with sess := s2 } :
            SysState).sess.last_request_time = s2.last_request_time from rfl,
            flusher_step_none_eq st.sess now s2 hE]
          exact hlast t k hg
      | some pl =>
          have hstep : sysStep st (SysEv.sweepCheck now) =
              { st with
                sess := s2
                dispatches := st.dispatches ++ [(now, SrcKind.sweep)]
                inFlight := st.inFlight + 1
                maxInFlight := max st.maxInFlight (st.inFlight + 1) } := by
            simp only [sysStep, hE]
          obtain ⟨hcond, hlrt⟩ := flusher_step_some_facts st.sess now s2 pl hE
          rw [hstep]
          constructor
          · intro t k hg
            rw [List.getLast?_concat] at hg
            injection hg with hg
            rw [show ({ st with
                sess := s2
                dispatches := st.dispatches ++ [(now, SrcKind.sweep)]
                inFlight := st.inFlight + 1
                maxInFlight := max st.maxInFlight (st.inFlight + 1) } :
              SysState).sess.last_request_time = s2.last_request_time from rfl,
              hlrt]
            injection hg with hg1 hg2
            exact le_of_eq hg1.symm
          · rw [List.chain'_append]
            refine ⟨hchain, List.chain'_singleton _, ?_⟩
            intro a ha b hb
            rw [Option.mem_def] at ha hb
            simp only [List.head?_cons, Option.some.injEq] at hb
            subst hb
            have h1 : a.1 ≤ st.sess.last_request_time := hlast a.1 a.2 ha
            have h2 : (min_request_interval : ℚ) ≤ flusher_max_wait := by
              norm_num [min_request_interval, flusher_max_wait]
            show min_request_interval ≤ now - a.1
            linarith [hcond]
  | jobDone =>
      exact ⟨fun t k hg => hlast t k hg, hchain⟩

theorem dispatch_gap_fold (evs : List SysEv) (st : SysState)
    (hlast : ∀ t k, st.dispatches.getLast? = some (t, k) →
      t ≤ st.sess.last_request_time)
    (hchain : List.Chain' minGap st.dispatches) :
    List.Chain' minGap ((evs.foldl sysStep st)).dispatches := by
  induction evs generalizing st with
  | nil => exact hchain
  | cons e evs ih =>
      rw [List.foldl_cons]
      have h := sysStep_gap st e hlast hchain
      exact ih (sysStep st e) h.1 h.2

theorem sysStep_frame_buffering (st : SysState) (now : ℚ)
    (hc : ¬ (min_request_interval ≤ now - st.sess.last_request_time ∧
      min_buffer_size ≤ st.sess.audio_buffer.length + FRAME_BYTES ∧
      frame_tts zFrame = false)) :
    sysStep st (SysEv.frameArrival now zFrame) =
      { st with
        sess := ⟨⟨false, 0⟩,
          st.sess.audio_buffer ++ List.replicate FRAME_BYTES 0,
          st.sess.last_request_time⟩
        lastActivity := now } := by
  have h := process_audio_chunk_buffering st.sess now zFrame zFrame_length hc
  rw [zFrame_tts, zFrame_timestamp, zFrame_payload] at h
  simp only [sysStep, h]

theorem sysStep_frame_dispatch_z (st : SysState) (now : ℚ)
    (hc : min_request_interval ≤ now - st.sess.last_request_time ∧
      min_buffer_size ≤ st.sess.audio_buffer.length + FRAME_BYTES ∧
      frame_tts zFrame = false) :
    sysStep st (SysEv.frameArrival now zFrame) =
      { st with
        sess := ⟨⟨false, 0⟩, [], now⟩
        lastActivity := now
        dispatches := st.dispatches ++ [(now, SrcKind.frame)]
        inFlight := st.inFlight + 1
        maxInFlight := max st.maxInFlight (st.inFlight + 1) } := by
  have h := process_audio_chunk_dispatch st.sess now zFrame zFrame_length hc
  rw [zFrame_tts, zFrame_timestamp] at h
  simp only [sysStep, h]

theorem sysStep_sweep_flush (st : SysState) (now : ℚ)
    (hc : 0 < st.sess.audio_buffer.length ∧
      flusher_max_wait ≤ now - st.sess.last_request_time) :
    sysStep st (SysEv.sweepCheck now) =
      { st with
        sess := ⟨st.sess.client, [], now⟩
        dispatches := st.dispatches ++ [(now, SrcKind.sweep)]
        inFlight := st.inFlight + 1
        maxInFlight := max st.maxInFlight (st.inFlight + 1) } := by
  have h := flusher_step_flush st.sess now hc
  simp only [sysStep, h]

theorem frame11_step (n : Nat) (la : ℚ) (ds : List (ℚ × SrcKind)) (fl mx : Nat) :
    sysStep ⟨⟨⟨false, 0⟩, List.replicate n 0, 10⟩, la, ds, fl, mx⟩
        (SysEv.frameArrival 11 zFrame) =
      ⟨⟨⟨false, 0⟩, List.replicate (n + FRAME_BYTES) 0, 10⟩, 11, ds, fl, mx⟩ := by
  rw [sysStep_frame_buffering _ 11
    (by intro hcon
        have h2 := hcon.1
        norm_num [min_request_interval] at h2)]
  rw [show (⟨⟨⟨false, 0⟩, List.replicate n 0, 10⟩, la, ds, fl, mx⟩ :
      SysState).sess.audio_buffer = List.replicate n 0 from rfl,
    ← List.replicate_add]

theorem frames11_fold (k : Nat) : ∀ (n : Nat) (la : ℚ)
    (ds : List (ℚ × SrcKind)) (fl mx : Nat),
    (List.replicate k (SysEv.frameArrival 11 zFrame)).foldl sysStep
        ⟨⟨⟨false, 0⟩, List.replicate n 0, 10⟩, la, ds, fl, mx⟩ =
      ⟨⟨⟨false, 0⟩, List.replicate (n + FRAME_BYTES * k) 0, 10⟩,
       (if k = 0 then la else 11), ds, fl, mx⟩ := by
  induction k with
  | zero =>
      intro n la ds fl mx
      simp
  | succ k ih =>
      intro n la ds fl mx
      rw [List.replicate_succ, List.foldl_cons, frame11_step, ih (n + FRAME_BYTES) 11]
      have harith : n + FRAME_BYTES + FRAME_BYTES * k = n + FRAME_BYTES * (k + 1) := by
        ring
      rw [harith]
      simp

/-- The overlap trace: one frame at t = 0, a sweep dispatch at t = 10 whose
RunPod call is still in flight until t = 28, twenty more frames at t = 11 and
t = 13 of which the last one triggers a frame-path dispatch at t = 13, then
the two call completions. -/
def c8trace : List SysEv :=
  SysEv.frameArrival 0 zFrame :: SysEv.sweepCheck 10 ::
    (List.replicate 19 (SysEv.frameArrival 11 zFrame) ++
      [SysEv.frameArrival 13 zFrame, SysEv.jobDone, SysEv.jobDone])

theorem c8_state1 :
    sysStep initSys (SysEv.frameArrival 0 zFrame) =
      ⟨⟨⟨false, 0⟩, List.replicate FRAME_BYTES 0, 0⟩, 0, [], 0, 0⟩ := by
  rw [sysStep_frame_buffering initSys 0
    (by intro hcon
        have h2 := hcon.1
        norm_num [initSys, initSession, min_request_interval] at h2)]
  rfl

theorem c8_state2 :
    sysStep (⟨⟨⟨false, 0⟩, List.replicate FRAME_BYTES 0, 0⟩, 0, [], 0, 0⟩ : SysState)
        (SysEv.sweepCheck 10) =
      ⟨⟨⟨false, 0⟩, List.replicate 0 0, 10⟩, 0, [(10, SrcKind.sweep)], 1, 1⟩ := by
  rw [sysStep_sweep_flush _ 10
    (by constructor
        · simp only [List.length_replicate]
          norm_num [FRAME_BYTES, BATCH_SAMPLES]
        · norm_num [flusher_max_wait])]
  rfl

theorem c8_state3 :
    (List.replicate 19 (SysEv.frameArrival 11 zFrame)).foldl sysStep
        (⟨⟨⟨false, 0⟩, List.replicate 0 0, 10⟩, 0,
          [(10, SrcKind.sweep)], 1, 1⟩ : SysState) =
      ⟨⟨⟨false, 0⟩, List.replicate 91200 0, 10⟩, 11,
       [(10, SrcKind.sweep)], 1, 1⟩ := by
  rw [frames11_fold 19 0 0 [(10, SrcKind.sweep)] 1 1]
  rw [show (0 + FRAME_BYTES * 19 : Nat) = 91200 from by
    norm_num [FRAME_BYTES, BATCH_SAMPLES]]
  rw [if_neg (by norm_num)]

theorem c8_state4 :
    sysStep (⟨⟨⟨false, 0⟩, List.replicate 91200 0, 10⟩, 11,
        [(10, SrcKind.sweep)], 1, 1⟩ : SysState)
        (SysEv.frameArrival 13 zFrame) =
      ⟨⟨⟨false, 0⟩, [], 13⟩, 13,
       [(10, SrcKind.sweep), (13, SrcKind.frame)], 2, 2⟩ := by
  have hc : min_request_interval ≤ (13 : ℚ) -
      (⟨⟨⟨false, 0⟩, List.replicate 91200 0, 10⟩, 11,
        [(10, SrcKind.sweep)], 1, 1⟩ : SysState).sess.last_request_time ∧
      min_buffer_size ≤ (⟨⟨⟨false, 0⟩, List.replicate 91200 0, 10⟩, 11,
        [(10, SrcKind.sweep)], 1, 1⟩ : SysState).sess.audio_buffer.length +
        FRAME_BYTES ∧
      frame_tts zFrame = false := by
    refine ⟨?_, ?_, zFrame_tts⟩
    · rw [show (⟨⟨⟨false, 0⟩, List.replicate 91200 0, 10⟩, 11,
        [(10, SrcKind.sweep)], 1, 1⟩ : SysState).sess.last_request_time = 10 from rfl]
      norm_num [min_request_interval]
    · rw [show (⟨⟨⟨false, 0⟩, List.replicate 91200 0, 10⟩, 11,
        [(10, SrcKind.sweep)], 1, 1⟩ : SysState).sess.audio_buffer =
        List.replicate 91200 0 from rfl, List.length_replicate]
      norm_num [min_buffer_size, FRAME_BYTES, BATCH_SAMPLES]
  rw [sysStep_frame_dispatch_z _ 13 hc]
  rfl

/-- **C8** counterexample: in the run `c8trace` the sweep-triggered job
dispatched at t = 10 (completing only at t = 28) is still in flight when the
per-frame threshold path dispatches a second job at t = 13, so two jobs of the
same session are in flight simultaneously — the code keeps no in-flight flag. -/
theorem C8_counterexample :
    (runEvents c8trace).maxInFlight = 2 ∧
    (runEvents c8trace).dispatches =
      [(10, SrcKind.sweep), (13, SrcKind.frame)] := by
  have hrun : runEvents c8trace =
      ⟨⟨⟨false, 0⟩, [], 13⟩, 13,
       [(10, SrcKind.sweep), (13, SrcKind.frame)], 0, 2⟩ := by
    rw [runEvents, c8trace, List.foldl_cons, c8_state1, List.foldl_cons,
      c8_state2, List.foldl_append, c8_state3, List.foldl_cons, c8_state4,
      List.foldl_cons, List.foldl_cons, List.foldl_nil]
    rfl
  rw [hrun]
  exact ⟨rfl, rfl⟩

/-- **C8** (amended): dispatches of one session are rate-limited — any two
consecutive dispatches, from either trigger path, are at least
`min_request_interval` apart — and frames arriving below the thresholds only
buffer; but nothing prevents a new dispatch while an earlier job's RunPod call
is still in flight (see the counterexample). -/
theorem C8_min_dispatch_gap (evs : List SysEv) :
    List.Chain' minGap (runEvents evs).dispatches := by
  refine dispatch_gap_fold evs initSys ?_ ?_
  · intro t k hg
    rw [show initSys.dispatches = ([] : List (ℚ × SrcKind)) from rfl] at hg
    exact Option.noConfusion hg
  · rw [show initSys.dispatches = ([] : List (ℚ × SrcKind)) from rfl]
    exact List.chain'_nil

/-- The 60-second synthesis collection deadline (`timeout = 60.0` in
`process_audio_data_streaming`). -/
def tts_timeout : ℚ := 60

/-- One iteration's observation in the chunk-collection loop of
`handler.py` lines 234-246: either `audio_queue.get(timeout=0.1)` yielded a
chunk, or it raised `queue.Empty` and the loop then reads the stop flag, the
producer thread's liveness, and the current wall-clock time. -/
inductive Poll where
  | chunk (c : List Nat)
  | emptyPoll (stopSet : Bool) (alive : Bool) (now : ℚ)
  deriving DecidableEq, Repr

/-- The collection loop, driven by a finite trace of poll observations:
`some acc` once the loop breaks, `none` when the observations run out before
the loop breaks (the trace does not cover the whole run). -/
def collect (start : ℚ) : List Poll → List (List Nat) → Option (List (List Nat))
  | [], _ => none
  | Poll.chunk c :: rest, acc => collect start rest (acc ++ [c])
  | Poll.emptyPoll stopSet alive now :: rest, acc =>
      if stopSet = true ∨ alive = false then some acc
      else if tts_timeout < now - start then some acc
      else collect start rest acc

theorem collect_chunks (start : ℚ) (cs : List (List Nat)) (r : List Poll)
    (acc : List (List Nat)) :
    collect start (cs.map Poll.chunk ++ r) acc = collect start r (acc ++ cs) := by
  induction cs generalizing acc with
  | nil => simp
  | cons c cs ih =>
      rw [List.map_cons, List.cons_append]
      rw [show collect start (Poll.chunk c :: (cs.map Poll.chunk ++ r)) acc =
        collect start (cs.map Poll.chunk ++ r) (acc ++ [c]) from rfl]
      rw [ih (acc ++ [c]), List.append_assoc]
      rfl

theorem collect_waits (start : ℚ) (es : List Poll) (t : ℚ) (rest : List Poll)
    (hes : ∀ e ∈ es, ∃ now, e = Poll.emptyPoll false true now)
    (ht : tts_timeout < t - start) :
    ∀ acc, collect start (es ++ (Poll.emptyPoll false true t :: rest)) acc =
      some acc := by
  induction es with
  | nil =>
      intro acc
      rw [List.nil_append]
      simp only [collect]
      rw [if_neg (by simp), if_pos ht]
  | cons e es ih =>
      intro acc
      obtain ⟨now, he⟩ := hes e (List.mem_cons_self e es)
      subst he
      rw [List.cons_append]
      simp only [collect]
      rw [if_neg (by simp)]
      by_cases hn : tts_timeout < now - start
      · rw [if_pos hn]
      · rw [if_neg hn]
        exact ih (fun e he => hes e (List.mem_cons_of_mem _ he)) acc

/-- **C5**: if the producer yields the chunks `cs` and then blocks forever —
every later poll comes back empty with the stop flag clear and the thread
alive — the collector terminates at the first poll past the 60 s deadline and
returns exactly `cs`, in order: the timeout is observed and no chunk is lost. -/
theorem C5_collector_returns_chunks (start : ℚ) (cs : List (List Nat))
    (es : List Poll) (t : ℚ) (rest : List Poll)
    (hes : ∀ e ∈ es, ∃ now, e = Poll.emptyPoll false true now)
    (ht : tts_timeout < t - start) :
    collect start
      (cs.map Poll.chunk ++ (es ++ (Poll.emptyPoll false true t :: rest))) [] =
      some cs := by
  rw [collect_chunks, collect_waits start es t rest hes ht, List.nil_append]

/-- **C5** witness: two chunks, then an empty poll at t = 61 with the producer
still alive; the collector returns both chunks. -/
theorem C5_collector_returns_chunks_witness :
    (tts_timeout < (61 : ℚ) - 0) ∧
    collect 0 ([[1], [2]].map Poll.chunk ++
      ([] ++ (Poll.emptyPoll false true 61 :: []))) [] = some [[1], [2]] := by
  have ht : tts_timeout < (61 : ℚ) - 0 := by norm_num [tts_timeout]
  exact ⟨ht, C5_collector_returns_chunks 0 [[1], [2]] [] 61 []
    (fun e he => absurd he (List.not_mem_nil e)) ht⟩

/-- `chunk_size = 4096`: slice size used when feeding TTS audio to the
upsampler (handler.py line 260). -/
def upsample_chunk_size : Nat := 4096

/-- The successive slices `combined[i : i + n]` produced by
`for i in range(0, len(combined), n)`. -/
def chunksOf (n : Nat) (l : List Nat) : List (List Nat) :=
  if h : l = [] ∨ n = 0 then [] else l.take n :: chunksOf n (l.drop n)
termination_by l.length
decreasing_by
  rcases not_or.mp h with ⟨h1, h2⟩
  rw [List.length_drop]
  have hl : 0 < l.length := List.length_pos.mpr h1
  omega

/-- One call to the upsampling collaborator, in job order. -/
inductive UpCall where
  | push (chunk : List Nat)
  | flushCall
  deriving DecidableEq, Repr

/-- The streamed stage events of one job (`type` discriminators of the yielded
dicts); audio payloads are carried as raw bytes, base64 transport elided. -/
inductive StageEvent where
  | audio_received (audio_length buffer_size : Nat)
  | audio_preprocessing
  | speech_recognition (text : String)
  | llm_response (text : String)
  | tts_generation (audio_bytes : List Nat) (text : String)
  | processing_complete (final_text : String) (final_audio_bytes : List Nat)
  | error (msg : String)
  | control_response (msg : String)
  deriving DecidableEq, Repr

/-- `struct.pack('<h', v)`: 16-bit two's-complement little-endian packing. -/
def packLE16 (v : Int) : List Nat :=
  [((v % 65536) % 256).toNat, ((v % 65536) / 256).toNat]

/-- `samples = int(sample_rate * duration) = int(24000 * 1.0)`. -/
def tone_sample_count : Nat := 24000

/-- The 1-second 440 Hz fallback test tone (handler.py lines 296-314).  The
floating-point sample value `int(16383 * math.sin(2*pi*440*t))` is outside the
embedding and enters as the parameter `sine`; the sample count and the 2-byte
little-endian packing are modelled exactly. -/
def fallbackTone (sine : Nat → Int) : List Nat :=
  ((List.range tone_sample_count).map (fun i => packLE16 (sine i))).flatten

theorem packLE16_length (v : Int) : (packLE16 v).length = 2 := rfl

theorem join_map_packLE16_length (f : Nat → Int) (l : List Nat) :
    ((l.map (fun i => packLE16 (f i))).flatten).length = 2 * l.length := by
  induction l with
  | nil => rfl
  | cons a l ih =>
      rw [List.map_cons, List.flatten_cons, List.length_append, ih,
        packLE16_length, List.length_cons]
      ring

theorem fallbackTone_length (sine : Nat → Int) :
    (fallbackTone sine).length = 48000 := by
  rw [fallbackTone, join_map_packLE16_length, List.length_range]
  norm_num [tone_sample_count]

/-- Summary of the opaque stateful upsampling collaborator over one job:
given the ordered list of pushed slices, its per-push outputs and its flush
output, as decoded bytes (an empty list models a falsy/empty chunk). -/
structure UpsEnv where
  pushOuts : List (List Nat) → List (List Nat)
  flushOut : List (List Nat) → List Nat

/-- The upsampler call sequence of the non-empty-chunk path: one push per
4096-byte slice, then exactly one flush. -/
def ttsCalls (combined : List Nat) : List UpCall :=
  (chunksOf upsample_chunk_size combined).map UpCall.push ++ [UpCall.flushCall]

/-- Final audio assembly of the non-empty-chunk path (handler.py 256-292):
non-empty push outputs, then the flush output if non-empty; if everything came
back empty, fall back to the original 24 kHz audio. -/
def upsampledAudio (ups : UpsEnv) (combined : List Nat) : List Nat :=
  let pieces := chunksOf upsample_chunk_size combined
  let outs := (ups.pushOuts pieces).filter (fun c => !c.isEmpty)
  let fl := ups.flushOut pieces
  let upsampled := outs ++ (if fl = [] then [] else [fl])
  if upsampled = [] then combined else upsampled.flatten

/-- The TTS/upsampling tail of `process_audio_data_streaming`
(handler.py lines 252-314): with at least one collected chunk the joined audio
is sliced, pushed, and flushed once; with zero chunks the upsampler is never
touched and the synthetic test tone is substituted.  Returns the upsampler
call trace and the final audio bytes. -/
def ttsSection (sine : Nat → Int) (ups : UpsEnv)
    (audio_chunks : List (List Nat)) : List UpCall × List Nat :=
  if audio_chunks = [] then ([], fallbackTone sine)
  else (ttsCalls audio_chunks.flatten, upsampledAudio ups audio_chunks.flatten)

/-- Abstract outcome of the environment-dependent stages of one audio job:
`decodeFail` = an exception before the first yield (e.g. `base64.b64decode`
raising on malformed input); `ttsFail` = an uncaught exception in the TTS
section after the four leading events (transcription and LLM failures are
caught internally and replaced by fallback strings, so they never raise);
`success` = the stages ran through with the given transcription, response and
collected synthesis chunks. -/
inductive JobOutcome where
  | decodeFail (msg : String)
  | ttsFail (transcribed response msg : String)
  | success (transcribed response : String) (chunks : List (List Nat))
  deriving DecidableEq, Repr

/-- The event stream yielded by `process_audio_data_streaming` for one
`audio_batch` job (handler.py lines 65-336); the generator's outer
`try`/`except` turns any uncaught exception into a single trailing error
event. -/
def processorEvents (sine : Nat → Int) (ups : UpsEnv) (audio_bytes : List Nat)
    (prev_buffer : Nat) (out : JobOutcome) : List StageEvent :=
  match out with
  | JobOutcome.decodeFail msg => [StageEvent.error msg]
  | JobOutcome.ttsFail t r msg =>
      [StageEvent.audio_received audio_bytes.length
        (prev_buffer + audio_bytes.length),
       StageEvent.audio_preprocessing,
       StageEvent.speech_recognition t,
       StageEvent.llm_response r,
       StageEvent.error msg]
  | JobOutcome.success t r chunks =>
      [StageEvent.audio_received audio_bytes.length
        (prev_buffer + audio_bytes.length),
       StageEvent.audio_preprocessing,
       StageEvent.speech_recognition t,
       StageEvent.llm_response r,
       StageEvent.tts_generation (ttsSection sine ups chunks).2 r,
       StageEvent.processing_complete r (ttsSection sine ups chunks).2]

/-- The `input` object of one RunPod job as `handler` inspects it: optional
fields are `none` when absent or falsy. -/
structure JobInput where
  has_input : Bool
  client_id : Option String
  message_type : String
  audio_data : Option (List Nat)
  control_message : Option String
  deriving DecidableEq, Repr

/-- The event stream yielded by `handler` (handler.py lines 341-412) for one
job, with the audio pipeline's environment-dependent stages abstracted by
`out`. -/
def handlerEvents (sine : Nat → Int) (ups : UpsEnv) (inp : JobInput)
    (prev_buffer : Nat) (out : JobOutcome) : List StageEvent :=
  if inp.has_input = false then [StageEvent.error "No input data provided"]
  else
    match inp.client_id with
    | none => [StageEvent.error "No client_id provided"]
    | some _ =>
        if inp.message_type = "audio_batch" then
          match inp.audio_data with
          | none => [StageEvent.error "No audio_data provided"]
          | some ab => processorEvents sine ups ab prev_buffer out
        else if inp.message_type = "control" then
          match inp.control_message with
          | none => [StageEvent.error "No control message provided"]
          | some ct => [StageEvent.control_response ct]
        else
          [StageEvent.error ("Unknown message type: " ++ inp.message_type)]

/-- Terminal events: the job's single closing event. -/
def isTerminal : StageEvent → Bool
  | StageEvent.processing_complete _ _ => true
  | StageEvent.error _ => true
  | _ => false

/-- Recognizer for the AudioReceived acknowledgment event. -/
def isAudioReceivedEv : StageEvent → Bool
  | StageEvent.audio_received _ _ => true
  | _ => false

/-- Recognizer for error events. -/
def isErrorEv : StageEvent → Bool
  | StageEvent.error _ => true
  | _ => false

/-- **C3** (amended): whenever the synthesis stage produced at least one chunk,
the upsampler receives one push per 4096-byte slice, in order, followed by
exactly one flush which is the last call of the job; with zero chunks the
fallback-tone path never touches the upsampler, so flush is not called and the
upsampler state can carry over into the next job. -/
theorem C3_flush_after_pushes (sine : Nat → Int) (ups : UpsEnv)
    (chunks : List (List Nat)) (h : chunks ≠ []) :
    (∃ ps : List (List Nat), (ttsSection sine ups chunks).1 =
      ps.map UpCall.push ++ [UpCall.flushCall]) ∧
    (ttsSection sine ups chunks).1.count UpCall.flushCall = 1 ∧
    (ttsSection sine ups chunks).1.getLast? = some UpCall.flushCall := by
  have h1 : (ttsSection sine ups chunks).1 =
      (chunksOf upsample_chunk_size chunks.flatten).map UpCall.push ++
        [UpCall.flushCall] := by
    rw [ttsSection, if_neg h]
    rfl
  refine ⟨⟨chunksOf upsample_chunk_size chunks.flatten, h1⟩, ?_, ?_⟩
  · rw [h1, List.count_append]
    have h0 : ((chunksOf upsample_chunk_size chunks.flatten).map
        UpCall.push).count UpCall.flushCall = 0 := by
      rw [List.count_eq_zero]
      intro hmem
      obtain ⟨c, _, hc⟩ := List.mem_map.mp hmem
      exact UpCall.noConfusion hc
    rw [h0]
    rfl
  · rw [h1, List.getLast?_concat]

/-- **C3** witness: a single one-byte synthesis chunk. -/
theorem C3_flush_after_pushes_witness :
    (([[0]] : List (List Nat)) ≠ []) ∧
    (∃ ps : List (List Nat),
      (ttsSection (fun _ => 0) ⟨fun _ => [], fun _ => []⟩ [[0]]).1 =
      ps.map UpCall.push ++ [UpCall.flushCall]) ∧
    (ttsSection (fun _ => 0) ⟨fun _ => [], fun _ => []⟩ [[0]]).1.count
      UpCall.flushCall = 1 ∧
    (ttsSection (fun _ => 0) ⟨fun _ => [], fun _ => []⟩ [[0]]).1.getLast? =
      some UpCall.flushCall := by
  have hne : (([[0]] : List (List Nat)) ≠ []) := by simp
  have h := C3_flush_after_pushes (fun _ => 0) ⟨fun _ => [], fun _ => []⟩
    [[0]] hne
  exact ⟨hne, h.1, h.2.1, h.2.2⟩

/-- **C3** counterexample: with zero synthesis chunks the fallback path makes
no upsampler calls at all, so flush is invoked 0 times, not exactly once. -/
theorem C3_counterexample :
    (ttsSection (fun _ => 0) ⟨fun _ => [], fun _ => []⟩ []).1.count
      UpCall.flushCall = 0 ∧
    (ttsSection (fun _ => 0) ⟨fun _ => [], fun _ => []⟩ []).1.count
      UpCall.flushCall ≠ 1 := by
  have h0 : (ttsSection (fun _ => 0) ⟨fun _ => [], fun _ => []⟩ []).1 =
      ([] : List UpCall) := by
    rw [ttsSection, if_pos rfl]
  rw [h0]
  exact ⟨rfl, by decide⟩

/-- **C6**: when the synthesis stage produces zero audio chunks by the
deadline, the job substitutes the 48000-byte synthetic tone (1 s of 24 kHz
16-bit samples), still closes with its processing_complete event carrying that
non-empty audio, and emits no error event: a synthesis timeout is never
fatal. -/
theorem C6_fallback_tone (sine : Nat → Int) (ups : UpsEnv) (t r : String)
    (audio_bytes : List Nat) (prev_buffer : Nat) :
    (processorEvents sine ups audio_bytes prev_buffer
        (JobOutcome.success t r [])).getLast? =
      some (StageEvent.processing_complete r (fallbackTone sine)) ∧
    (fallbackTone sine).length = 48000 ∧
    fallbackTone sine ≠ [] ∧
    (processorEvents sine ups audio_bytes prev_buffer
        (JobOutcome.success t r [])).countP (fun e => isErrorEv e) = 0 := by
  have hlen := fallbackTone_length sine
  have hts : ttsSection sine ups ([] : List (List Nat)) =
      ([], fallbackTone sine) := by
    rw [ttsSection, if_pos rfl]
  have hev : processorEvents sine ups audio_bytes prev_buffer
      (JobOutcome.success t r []) =
      [StageEvent.audio_received audio_bytes.length
        (prev_buffer + audio_bytes.length),
       StageEvent.audio_preprocessing,
       StageEvent.speech_recognition t,
       StageEvent.llm_response r,
       StageEvent.tts_generation (fallbackTone sine) r,
       StageEvent.processing_complete r (fallbackTone sine)] := by
    simp only [processorEvents, hts]
  rw [hev]
  refine ⟨rfl, hlen, ?_, rfl⟩
  intro hnil
  rw [hnil] at hlen
  norm_num at hlen

/-- **C4** counterexample: an audio_batch job carrying a client id but no
audio data emits the single error event, so its first emitted event is not
AudioReceived. -/
theorem C4_counterexample :
    handlerEvents (fun _ => 0) ⟨fun _ => [], fun _ => []⟩
      ⟨true, some "client_1", "audio_batch", none, none⟩ 0
      (JobOutcome.success "" "" []) =
      [StageEvent.error "No audio_data provided"] ∧
    isAudioReceivedEv (StageEvent.error "No audio_data provided") = false :=
  ⟨rfl, rfl⟩

/-- **C4** (amended): every audio_batch job emits a non-empty event sequence
containing exactly one terminal event (processing_complete or error), which is
its last element; the sequence begins with audio_received precisely when the
job passes the handler's input checks and audio decoding does not raise,
and otherwise is the single error event.  (This handler emits no separate
SynthesisChunk events — synthesis audio travels inside tts_generation and
processing_complete — so the chunk-ordering clause holds vacuously.) -/
theorem C4_event_ordering (sine : Nat → Int) (ups : UpsEnv) (inp : JobInput)
    (prev_buffer : Nat) (out : JobOutcome)
    (hmt : inp.message_type = "audio_batch") :
    handlerEvents sine ups inp prev_buffer out ≠ [] ∧
    (handlerEvents sine ups inp prev_buffer out).countP
      (fun e => isTerminal e) = 1 ∧
    (handlerEvents sine ups inp prev_buffer out).getLast?.map isTerminal =
      some true ∧
    (inp.has_input = true → inp.client_id.isSome = true →
      inp.audio_data.isSome = true → (∀ m, out ≠ JobOutcome.decodeFail m) →
      (handlerEvents sine ups inp prev_buffer out).head?.map
        isAudioReceivedEv = some true) := by
  obtain ⟨hi, cid, mt, ad, cm⟩ := inp
  simp only at hmt
  subst hmt
  cases hi with
  | false =>
      refine ⟨?_, ?_, ?_, ?_⟩ <;>
        simp [handlerEvents, isTerminal]
  | true =>
      cases cid with
      | none =>
          refine ⟨?_, ?_, ?_, ?_⟩ <;>
            simp [handlerEvents, isTerminal]
      | some c =>
          cases ad with
          | none =>
              refine ⟨?_, ?_, ?_, ?_⟩ <;>
                simp [handlerEvents, isTerminal]
          | some ab =>
              cases out with
              | decodeFail m =>
                  refine ⟨?_, ?_, ?_, ?_⟩
                  · simp [handlerEvents, processorEvents]
                  · simp [handlerEvents, processorEvents, isTerminal]
                  · simp [handlerEvents, processorEvents, isTerminal]
                  · intro _ _ _ h4
                    exact absurd rfl (h4 m)
              | ttsFail t r m =>
                  refine ⟨?_, ?_, ?_, ?_⟩ <;>
                    simp [handlerEvents, processorEvents, isTerminal,
                      isAudioReceivedEv]
              | success t r chunks =>
                  refine ⟨?_, ?_, ?_, ?_⟩ <;>
                    simp [handlerEvents, processorEvents, isTerminal,
                      isAudioReceivedEv]

/-- **C4** witness: a well-formed audio job that runs to completion. -/
theorem C4_event_ordering_witness :
    handlerEvents (fun _ => 0) ⟨fun _ => [], fun _ => []⟩
      ⟨true, some "client_1", "audio_batch", some [0], none⟩ 0
      (JobOutcome.success "hi" "hello" []) ≠ [] ∧
    (handlerEvents (fun _ => 0) ⟨fun _ => [], fun _ => []⟩
      ⟨true, some "client_1", "audio_batch", some [0], none⟩ 0
      (JobOutcome.success "hi" "hello" [])).countP
      (fun e => isTerminal e) = 1 ∧
    (handlerEvents (fun _ => 0) ⟨fun _ => [], fun _ => []⟩
      ⟨true, some "client_1", "audio_batch", some [0], none⟩ 0
      (JobOutcome.success "hi" "hello" [])).getLast?.map isTerminal =
      some true ∧
    (handlerEvents (fun _ => 0) ⟨fun _ => [], fun _ => []⟩
      ⟨true, some "client_1", "audio_batch", some [0], none⟩ 0
      (JobOutcome.success "hi" "hello" [])).head?.map isAudioReceivedEv =
      some true := by
  have h := C4_event_ordering (fun _ => 0) ⟨fun _ => [], fun _ => []⟩
    ⟨true, some "client_1", "audio_batch", some [0], none⟩ 0
    (JobOutcome.success "hi" "hello" []) rfl
  exact ⟨h.1, h.2.1, h.2.2.1,
    h.2.2.2 rfl rfl rfl (fun m hm => JobOutcome.noConfusion hm)⟩

/-- Outcome of one `httpx` request as `call_runpod_function` distinguishes
them: success, `httpx.TimeoutException`, `httpx.RequestError`, or a
`raise_for_status` `httpx.HTTPStatusError`. -/
inductive ReqOutcome where
  | ok
  | timedOut
  | requestErr (msg : String)
  | statusErr (msg : String)
  deriving DecidableEq, Repr

/-- The transport environment of one bridge call: how the `/run` submit
request fares, whether its body carries a job id, how the `/stream/{job_id}`
request fares, and the streamed chunks (`some s` = a chunk with an `output`
field). -/
structure BridgeEnv where
  submit : ReqOutcome
  job_id : Option String
  stream : ReqOutcome
  chunks : List (Option String)
  deriving DecidableEq, Repr

/-- A message sent to the client over the WebSocket by this code path. -/
inductive OutMsg where
  | stream_chunk (out : String)
  | stream_complete (job_id : String)
  | error (msg : String)
  deriving DecidableEq, Repr

/-- How `call_runpod_function` returns to its caller: normally, by raising
`HTTPException` (after the matching `except` block ran), or by raising
`ValueError` when the submit response has no job id (caught by no local
`except`). -/
inductive CallExit where
  | success
  | httpExc (status : Nat) (detail : String)
  | valueExc (msg : String)
  deriving DecidableEq, Repr

/-- Result of one bridge call: how many submit and stream requests were
issued, the messages sent to the client, and the exit mode. -/
structure CallRun where
  submits : Nat
  streamReqs : Nat
  msgs : List OutMsg
  exit : CallExit
  deriving DecidableEq, Repr

/-- `ConnectionManager.call_runpod_function` (main.py lines 313-398): one
submit request with its own 3 s timeout; on success and a job id, one stream
request with its own 15 s timeout; each `httpx` failure sends exactly one
error message to the client and re-raises as `HTTPException`; a missing job
id raises `ValueError` with no client message; on success every chunk with an
`output` field is forwarded in order followed by `stream_complete`.  Never
retries: one submit, at most one stream request. -/
def call_runpod_function (env : BridgeEnv) : CallRun :=
  match env.submit with
  | ReqOutcome.timedOut =>
      ⟨1, 0, [OutMsg.error "Request timed out"],
       CallExit.httpExc 504 "RunPod request timed out"⟩
  | ReqOutcome.requestErr m =>
      ⟨1, 0, [OutMsg.error ("Request failed: " ++ m)],
       CallExit.httpExc 500 ("RunPod request failed: " ++ m)⟩
  | ReqOutcome.statusErr m =>
      ⟨1, 0, [OutMsg.error ("HTTP error: " ++ m)],
       CallExit.httpExc 500 ("RunPod HTTP error: " ++ m)⟩
  | ReqOutcome.ok =>
      match env.job_id with
      | none => ⟨1, 0, [], CallExit.valueExc "No job ID returned from RunPod"⟩
      | some jid =>
          match env.stream with
          | ReqOutcome.timedOut =>
              ⟨1, 1, [OutMsg.error "Request timed out"],
               CallExit.httpExc 504 "RunPod request timed out"⟩
          | ReqOutcome.requestErr m =>
              ⟨1, 1, [OutMsg.error ("Request failed: " ++ m)],
               CallExit.httpExc 500 ("RunPod request failed: " ++ m)⟩
          | ReqOutcome.statusErr m =>
              ⟨1, 1, [OutMsg.error ("HTTP error: " ++ m)],
               CallExit.httpExc 500 ("RunPod HTTP error: " ++ m)⟩
          | ReqOutcome.ok =>
              ⟨1, 1,
               (env.chunks.filterMap
                 (fun c => c.map OutMsg.stream_chunk)) ++
                 [OutMsg.stream_complete jid],
               CallExit.success⟩

/-- String form of the exception as the caller's `except` stringifies it. -/
def exitMsg : CallExit → String
  | CallExit.success => ""
  | CallExit.httpExc _ d => d
  | CallExit.valueExc m => m

/-- The frame-triggered dispatch path around the bridge call
(main.py lines 187-209): the caller catches any exception and sends one more
error message to the client. -/
def framePathMsgs (env : BridgeEnv) : List OutMsg :=
  let r := call_runpod_function env
  match r.exit with
  | CallExit.success => r.msgs
  | e => r.msgs ++ [OutMsg.error (exitMsg e)]

/-- The idle-flush dispatch path around the bridge call (main.py lines
303-306): the sweep's `except` only logs, sending nothing further. -/
def flusherPathMsgs (env : BridgeEnv) : List OutMsg :=
  (call_runpod_function env).msgs

/-- Count of error messages delivered to the client. -/
def errorCount (msgs : List OutMsg) : Nat :=
  msgs.countP (fun m => match m with
    | OutMsg.error _ => true
    | _ => false)

/-- The failures the claim enumerates: transport failure, HTTP-level failure
or timeout, at the submit step or at the stream step. -/
def isHttpFailure (env : BridgeEnv) : Prop :=
  env.submit ≠ ReqOutcome.ok ∨
  (env.submit = ReqOutcome.ok ∧ env.job_id.isSome = true ∧
    env.stream ≠ ReqOutcome.ok)

/-- **C7** counterexample: when the submit request times out during a
frame-triggered dispatch, the client receives two error events for the job —
one from the bridge's `except` block and one from the caller's — not exactly
one. -/
theorem C7_counterexample :
    errorCount (framePathMsgs ⟨ReqOutcome.timedOut, none, ReqOutcome.ok, []⟩) =
      2 ∧
    errorCount (framePathMsgs ⟨ReqOutcome.timedOut, none, ReqOutcome.ok, []⟩) ≠
      1 := ⟨rfl, by decide⟩

theorem call_failure_one_error (env : BridgeEnv) (h : isHttpFailure env) :
    errorCount (call_runpod_function env).msgs = 1 ∧
    (call_runpod_function env).exit ≠ CallExit.success := by
  rcases env with ⟨sub, jid, str, chs⟩
  cases sub with
  | ok =>
      rcases h with h | ⟨_, hj, hs⟩
      · exact absurd rfl h
      · cases jid with
        | none => exact absurd hj (by simp)
        | some j =>
            cases str with
            | ok => exact absurd rfl hs
            | timedOut => exact ⟨rfl, by simp [call_runpod_function]⟩
            | requestErr m => exact ⟨rfl, by simp [call_runpod_function]⟩
            | statusErr m => exact ⟨rfl, by simp [call_runpod_function]⟩
  | timedOut => exact ⟨rfl, by simp [call_runpod_function]⟩
  | requestErr m => exact ⟨rfl, by simp [call_runpod_function]⟩
  | statusErr m => exact ⟨rfl, by simp [call_runpod_function]⟩

/-- **C7** (amended): on transport failure, HTTP-level failure or timeout at
either the submit or the stream step, the bridge sends exactly one error
event and raises; the frame-triggered caller catches the raise and sends a
second error event (so the client gets two), while the idle-flush caller only
logs (so the client gets exactly one); there is no automatic retry — exactly
one submit request and at most one stream request per call — and the submit
and stream timeouts are configured independently (3 s and 15 s). -/
theorem C7_bridge_failure (env : BridgeEnv) (h : isHttpFailure env) :
    errorCount (framePathMsgs env) = 2 ∧
    errorCount (flusherPathMsgs env) = 1 ∧
    (call_runpod_function env).submits = 1 ∧
    (call_runpod_function env).streamReqs ≤ 1 ∧
    run_request_timeout = 3 ∧ stream_request_timeout = 15 := by
  obtain ⟨h1, h2⟩ := call_failure_one_error env h
  refine ⟨?_, h1, ?_, ?_, rfl, rfl⟩
  · rw [framePathMsgs]
    rcases hx : (call_runpod_function env).exit with _ | ⟨st, d⟩ | m
    · exact absurd hx h2
    · simp only [hx]
      rw [errorCount, List.countP_append, ← errorCount]
      rw [h1]
      rfl
    · simp only [hx]
      rw [errorCount, List.countP_append, ← errorCount]
      rw [h1]
      rfl
  · rcases env with ⟨sub, jid, str, chs⟩
    cases sub <;> first
      | rfl
      | (cases jid <;> first | rfl | (cases str <;> rfl))
  · rcases env with ⟨sub, jid, str, chs⟩
    cases sub <;> first
      | exact Nat.le_refl 1
      | exact Nat.zero_le 1
      | (cases jid <;> first
          | exact Nat.le_refl 1
          | exact Nat.zero_le 1
          | (cases str <;> first
              | exact Nat.le_refl 1
              | exact Nat.zero_le 1))

/-- **C7** witness: a stream-step timeout after a successful submit. -/
theorem C7_bridge_failure_witness :
    isHttpFailure ⟨ReqOutcome.ok, some "job-1", ReqOutcome.timedOut, []⟩ ∧
    errorCount (framePathMsgs
      ⟨ReqOutcome.ok, some "job-1", ReqOutcome.timedOut, []⟩) = 2 ∧
    errorCount (flusherPathMsgs
      ⟨ReqOutcome.ok, some "job-1", ReqOutcome.timedOut, []⟩) = 1 ∧
    (call_runpod_function
      ⟨ReqOutcome.ok, some "job-1", ReqOutcome.timedOut, []⟩).submits = 1 ∧
    (call_runpod_function
      ⟨ReqOutcome.ok, some "job-1", ReqOutcome.timedOut, []⟩).streamReqs ≤ 1 ∧
    run_request_timeout = 3 ∧ stream_request_timeout = 15 := by
  have hf : isHttpFailure
      ⟨ReqOutcome.ok, some "job-1", ReqOutcome.timedOut, []⟩ := by
    right
    exact ⟨rfl, rfl, by decide⟩
  have h := C7_bridge_failure
    ⟨ReqOutcome.ok, some "job-1", ReqOutcome.timedOut, []⟩ hf
  exact ⟨hf, h.1, h.2.1, h.2.2.1, h.2.2.2.1, h.2.2.2.2.1, h.2.2.2.2.2⟩

end VoiceChat
